import Mathlib

/-!
Verification development for the `linear_fdw` connector (`src/lib.rs`):
a foreign-data-wrapper that translates relational scans over Linear's
GraphQL API.  The definitions below are a shallow embedding of the Rust
source: JSON values, the host cell/type vocabulary, the query builder in
`begin_scan`, the row coercion in `iter_scan`, and the write-path stubs.
Host collaborators that live outside the source tree (option lookup,
vault secrets, timestamp parsing, HTTP transport) are modelled at their
interfaces, as the spec describes them.
-/

/-- Numeric payload of a JSON number, mirroring `serde_json::Number`:
either an integer (the `i64`/`u64` arms) or a float (the `f64` arm).
Float payloads are abstracted away: `as_i64` returns `None` on them and
no verified claim depends on a float's value. -/
inductive JNum where
  | int (n : Int)
  | float
deriving DecidableEq

/-- JSON values, mirroring `serde_json::Value`.  Objects are association
lists (serde maps have unique keys; lookup takes the first match). -/
inductive Json where
  | null
  | boolean (b : Bool)
  | number (n : JNum)
  | str (s : String)
  | arr (xs : List Json)
  | obj (kvs : List (String × Json))

/-- Key lookup in a JSON object's association list (`serde_json::Map::get`). -/
def lookupJ (kvs : List (String × Json)) (k : String) : Option Json :=
  match kvs.find? (fun kv => kv.fst == k) with
  | some kv => some kv.snd
  | none => none

/-- `Value::as_object`. -/
def Json.asObject : Json → Option (List (String × Json))
  | .obj kvs => some kvs
  | _ => none

/-- `Value::as_array`. -/
def Json.asArray : Json → Option (List Json)
  | .arr xs => some xs
  | _ => none

/-- `Value::as_str`. -/
def Json.asStr : Json → Option String
  | .str s => some s
  | _ => none

/-- `Value::as_bool`. -/
def Json.asBool : Json → Option Bool
  | .boolean b => some b
  | _ => none

/-- `Value::is_object`. -/
def Json.isObj : Json → Bool
  | .obj _ => true
  | _ => false

/-- `Value::as_i64`: an integer payload is returned exactly when it fits
a signed 64-bit integer (serde's `u64` arm answers `None` above
`i64::MAX`); float payloads always answer `None`. -/
def Json.asI64 : Json → Option Int
  | .number (.int n) => if -(2 ^ 63) ≤ n ∧ n < 2 ^ 63 then some n else none
  | _ => none

/-- `Value::get(key)` on a (possibly non-object) value. -/
def topGet (j : Json) (k : String) : Option Json :=
  j.asObject.bind (fun kvs => lookupJ kvs k)

/-- Lower-case hex digit, as used by serde's string escaper. -/
def hexDigit (n : Nat) : Char :=
  if n < 10 then Char.ofNat (48 + n) else Char.ofNat (87 + n)

/-- Escape one character the way `serde_json` does when serializing a
string (quote, backslash, the short control escapes, `\u00XX` for the
remaining control characters). -/
def escapeJsonChar (c : Char) : String :=
  if c = '"' then "\\\""
  else if c = '\\' then "\\\\"
  else if c = '\x08' then "\\b"
  else if c = '\x0c' then "\\f"
  else if c = '\n' then "\\n"
  else if c = '\r' then "\\r"
  else if c = '\t' then "\\t"
  else if c.toNat < 32 then
    "\\u00" ++ String.singleton (hexDigit (c.toNat / 16))
            ++ String.singleton (hexDigit (c.toNat % 16))
  else String.singleton c

/-- Serialized (quoted, escaped) JSON string literal. -/
def escapeJsonString (s : String) : String :=
  "\"" ++ String.join (s.data.map escapeJsonChar) ++ "\""

mutual

/-- `serde_json::to_string` on a value (compact form, no spaces).  The
float arm prints a placeholder since float payloads are abstracted. -/
def jsonSerialize : Json → String
  | .null => "null"
  | .boolean b => if b then "true" else "false"
  | .number (.int n) => toString n
  | .number .float => "0.0"
  | .str s => escapeJsonString s
  | .arr xs => "[" ++ serializeArr xs ++ "]"
  | .obj kvs => "\x7b" ++ serializeObj kvs ++ "\x7d"

/-- Comma-joined serialization of an array's elements. -/
def serializeArr : List Json → String
  | [] => ""
  | [x] => jsonSerialize x
  | x :: y :: rest => jsonSerialize x ++ "," ++ serializeArr (y :: rest)

/-- Comma-joined serialization of an object's entries. -/
def serializeObj : List (String × Json) → String
  | [] => ""
  | [kv] => escapeJsonString kv.fst ++ ":" ++ jsonSerialize kv.snd
  | kv :: kv2 :: rest =>
    escapeJsonString kv.fst ++ ":" ++ jsonSerialize kv.snd ++ "," ++ serializeObj (kv2 :: rest)

end

/-- Unescape one JSON-pointer token: `~1` stands for `/` and `~0` for
`~` (serde applies the two replacements in sequence; on the tokens this
connector produces — which contain no tilde — a single left-to-right
pass is the same function). -/
def unescapeToken : List Char → List Char
  | [] => []
  | '~' :: '1' :: rest => '/' :: unescapeToken rest
  | '~' :: '0' :: rest => '~' :: unescapeToken rest
  | c :: rest => c :: unescapeToken rest

/-- Split a character list on `/`, keeping empty tokens (the behaviour
of Rust's `str::split`). -/
def splitSlash : List Char → List Char → List (List Char)
  | [], acc => [acc.reverse]
  | '/' :: rest, acc => acc.reverse :: splitSlash rest []
  | c :: rest, acc => splitSlash rest (c :: acc)

/-- Decimal array index of a pointer token (Rust `str::parse::<usize>`
on the digits-only form; the connector's pointers never index arrays). -/
def decimalNat? (s : String) : Option Nat :=
  if s.data ≠ [] ∧ s.data.all (fun c => c.isDigit) then
    some (s.data.foldl (fun n c => n * 10 + (c.toNat - 48)) 0)
  else none

/-- One step of JSON-pointer navigation over the unescaped tokens
(`serde_json::Value::pointer`): objects are indexed by key, arrays by a
decimal index, anything else fails. -/
def pointerGo : Json → List String → Option Json
  | j, [] => some j
  | .obj kvs, t :: rest =>
    match lookupJ kvs t with
    | some v => pointerGo v rest
    | none => none
  | .arr xs, t :: rest =>
    match decimalNat? t with
    | some i =>
      match xs.get? i with
      | some v => pointerGo v rest
      | none => none
    | none => none
  | _, _ :: _ => none

/-- `serde_json::Value::pointer`: empty pointer is the whole document, a
pointer not starting with `/` resolves to nothing, otherwise the slash
separated tokens (with `~1` and `~0` unescaped) are navigated in turn. -/
def jsonPointer (j : Json) (ptr : String) : Option Json :=
  match ptr.data with
  | [] => some j
  | '/' :: rest =>
    pointerGo j ((splitSlash rest []).map (fun t => String.mk (unescapeToken t)))
  | _ => none

/-- Host cell values (`supabase::wrappers::types::Cell`), restricted to
the constructors the source inspects or constructs; `other` stands for
every remaining host variant (float, numeric, date, ...), all of which
the source treats uniformly (skipped in predicate translation). -/
inductive Cell where
  | bool (b : Bool)
  | i32 (n : Int)
  | i64 (n : Int)
  | string (s : String)
  | timestamp (t : Int)
  | json (s : String)
  | other
deriving DecidableEq

/-- Host qual values (`types::Value`): a single cell or anything else
(`Value::Array`, ...), which the source skips. -/
inductive QualValue where
  | cell (c : Cell)
  | other
deriving DecidableEq

/-- One pushed-down predicate (`types::Qual`): column name, SQL operator
text, and value. -/
structure Qual where
  field : String
  operator : String
  value : QualValue
deriving DecidableEq

/-- Declared column types (`types::TypeOid`) as dispatched by
`iter_scan`; `other` stands for every host type oid outside the
supported set, all of which take the same error arm. -/
inductive TypeOid where
  | bool
  | i32
  | i64
  | string
  | timestamp
  | timestamptz
  | json
  | other
deriving DecidableEq

/-- One requested column (`types::Column`): name and declared type. -/
structure Column where
  name : String
  type_oid : TypeOid
deriving DecidableEq

/-- The connector state (`struct LinearFdw`). -/
structure LinearFdw where
  base_url : String
  src_rows : List Json
  src_idx : Nat
  api_key : String

/-- `LinearFdw::default()`, the state installed by `init_instance`. -/
def initialState : LinearFdw :=
  { base_url := "", src_rows := [], src_idx := 0, api_key := "" }

/-- Host option lookup (`OptionsType::get`), modelled as association
list lookup over the configured options. -/
def lookupOpt (opts : List (String × String)) (k : String) : Option String :=
  match opts.find? (fun kv => kv.fst == k) with
  | some kv => some kv.snd
  | none => none

/-- Host `OptionsType::require`. Modelled from the spec: the generated
bindings are not in the source tree; a missing required option is an
error (the exact message is the host's). -/
def requireOpt (opts : List (String × String)) (k : String) : Except String String :=
  match lookupOpt opts k with
  | some v => .ok v
  | none => .error ("required option not found: " ++ k)

/-- Host `OptionsType::require_or`. Modelled from the spec: the value of
the option when present, the supplied default otherwise. -/
def requireOr (opts : List (String × String)) (k dflt : String) : String :=
  match lookupOpt opts k with
  | some v => v
  | none => dflt

/-- `init`: installs a fresh instance, reads the base url (with its
default) and the credential — directly from `api_key`, or else through
the vault reference `api_key_id` (a failed vault lookup degrades to the
empty string via `unwrap_or_default`). The vault is the external secret
store, modelled as a partial map. -/
def fdwInit (serverOpts : List (String × String)) (vault : String → Option String) :
    Except String LinearFdw :=
  let base_url := requireOr serverOpts "api_url" "https://api.linear.app/graphql"
  match lookupOpt serverOpts "api_key" with
  | some key =>
    .ok { initialState with base_url := base_url, api_key := key }
  | none =>
    match requireOpt serverOpts "api_key_id" with
    | .error e => .error e
    | .ok key_id =>
      .ok { initialState with base_url := base_url, api_key := (vault key_id).getD "" }

/-- `snake_to_camel` character loop from `begin_scan`/`iter_scan`: drop
underscores and uppercase (ASCII) the character following each one. -/
def snakeToCamelGo : List Char → Bool → List Char
  | [], _ => []
  | c :: cs, uppercase =>
    if c = '_' then snakeToCamelGo cs true
    else if uppercase then c.toUpper :: snakeToCamelGo cs false
    else c :: snakeToCamelGo cs false

/-- `snake_to_camel` on a string (the accumulator starts lowercase). -/
def snakeToCamel (s : String) : String :=
  ⟨snakeToCamelGo s.data false⟩

/-- GraphQL selection emitted for one requested column in `begin_scan`:
the nine relation columns get their fixed sub-selections, everything
else the camel-cased bare field name. -/
def graphqlField (colName : String) : String :=
  if colName = "state" then "state \x7b id name color \x7d"
  else if colName = "state_id" then "state \x7b id \x7d"
  else if colName = "team_id" then "team \x7b id \x7d"
  else if colName = "assignee_id" then "assignee \x7b id \x7d"
  else if colName = "creator_id" then "creator \x7b id \x7d"
  else if colName = "parent_id" then "parent \x7b id \x7d"
  else if colName = "project_id" then "project \x7b id \x7d"
  else if colName = "cycle_id" then "cycle \x7b id \x7d"
  else if colName = "labels" then "labels \x7b nodes \x7b id name color \x7d \x7d"
  else snakeToCamel colName

/-- SQL-operator to Linear-filter-operator table from `begin_scan`
(`match operator.as_str()`); operators outside the table answer `none`
(the `continue` arm). -/
def filterOpOf (operator : String) : Option String :=
  if operator = "=" then some "eq"
  else if operator = "<>" then some "neq"
  else if operator = ">" then some "gt"
  else if operator = ">=" then some "gte"
  else if operator = "<" then some "lt"
  else if operator = "<=" then some "lte"
  else if operator = "~~" then some "contains"
  else if operator = "!~~" then some "notContains"
  else if operator = "~~*" then some "containsIgnoreCase"
  else if operator = "!~~*" then some "notContainsIgnoreCase"
  else if operator = "IS NULL" then some "null"
  else if operator = "IS NOT NULL" then some "notNull"
  else none

/-- Qual-value rendering from `begin_scan`: strings and timestamps are
quoted, booleans and integers printed bare, every other value kind
answers `none` (the `continue` arms). -/
def formatQualValue : QualValue → Option String
  | .cell c =>
    match c with
    | .string s => some ("\"" ++ s ++ "\"")
    | .bool b => some (if b then "true" else "false")
    | .i32 n => some (toString n)
    | .i64 n => some (toString n)
    | .timestamp t => some ("\"" ++ toString t ++ "\"")
    | _ => none
  | _ => none

/-- The `for qual in quals` loop of `begin_scan`: each qual whose
operator and value both translate contributes one filter fragment,
every other qual is skipped via `continue`. -/
def buildFilters : List Qual → List String
  | [] => []
  | q :: rest =>
    match filterOpOf q.operator with
    | none => buildFilters rest
    | some fop =>
      match formatQualValue q.value with
      | none => buildFilters rest
      | some fv =>
        (snakeToCamel q.field ++ ": \x7b " ++ fop ++ ": " ++ fv ++ " \x7d")
          :: buildFilters rest

/-- `filter_conditions` in `begin_scan`: empty unless there is at least
one qual and at least one fragment survived translation. -/
def mkFilterConditions (quals : List Qual) : String :=
  if quals.isEmpty then ""
  else
    let filters := buildFilters quals
    if filters.isEmpty then ""
    else "filter: \x7b " ++ String.intercalate ", " filters ++ " \x7d"

/-- The `match object.as_str()` of `begin_scan`: per logical object kind,
the exact query text and JSON-pointer to the result node.  The raw-string
templates of the source put a literal backslash before each quote around
an interpolated id (`\"` inside `r#"..."#` is two characters), which is
reproduced here verbatim.  Missing scope/id options and unknown object
names error out before any request is built. -/
def buildQuery (object : String) (opts : List (String × String))
    (filterConditions fields : String) : Except String (String × String) :=
  if object = "issues" then
    .ok ((if filterConditions.isEmpty then
            "\x7b issues \x7b nodes \x7b " ++ fields ++ " \x7d \x7d \x7d"
          else
            "\x7b issues(" ++ filterConditions ++ ") \x7b nodes \x7b " ++ fields ++ " \x7d \x7d \x7d"),
         "/data/issues/nodes")
  else if object = "issue" then
    match lookupOpt opts "id" with
    | none => .error "Missing required option 'id' for object 'issue'"
    | some id =>
      .ok ("\x7b issue(id: \\\"" ++ id ++ "\\\") \x7b " ++ fields ++ " \x7d \x7d",
           "/data/issue")
  else if object = "teams" then
    .ok ((if filterConditions.isEmpty then
            "\x7b teams \x7b nodes \x7b " ++ fields ++ " \x7d \x7d \x7d"
          else
            "\x7b teams(" ++ filterConditions ++ ") \x7b nodes \x7b " ++ fields ++ " \x7d \x7d \x7d"),
         "/data/teams/nodes")
  else if object = "team" then
    match lookupOpt opts "id" with
    | none => .error "Missing required option 'id' for object 'team'"
    | some id =>
      .ok ("\x7b team(id: \\\"" ++ id ++ "\\\") \x7b " ++ fields ++ " \x7d \x7d",
           "/data/team")
  else if object = "projects" then
    .ok ((if filterConditions.isEmpty then
            "\x7b projects \x7b nodes \x7b " ++ fields ++ " \x7d \x7d \x7d"
          else
            "\x7b projects(" ++ filterConditions ++ ") \x7b nodes \x7b " ++ fields ++ " \x7d \x7d \x7d"),
         "/data/projects/nodes")
  else if object = "project" then
    match lookupOpt opts "id" with
    | none => .error "Missing required option 'id' for object 'project'"
    | some id =>
      .ok ("\x7b project(id: \\\"" ++ id ++ "\\\") \x7b " ++ fields ++ " \x7d \x7d",
           "/data/project")
  else if object = "project_issues" then
    match lookupOpt opts "project_id" with
    | none => .error "Missing required option 'project_id' for object 'project_issues'"
    | some project_id =>
      .ok ((if filterConditions.isEmpty then
              "\x7b project(id: \\\"" ++ project_id ++ "\\\") \x7b issues \x7b nodes \x7b " ++ fields ++ " \x7d \x7d \x7d \x7d"
            else
              "\x7b project(id: \\\"" ++ project_id ++ "\\\") \x7b issues(" ++ filterConditions ++ ") \x7b nodes \x7b " ++ fields ++ " \x7d \x7d \x7d \x7d"),
           "/data/project/issues/nodes")
  else if object = "users" then
    .ok ((if filterConditions.isEmpty then
            "\x7b users \x7b nodes \x7b " ++ fields ++ " \x7d \x7d \x7d"
          else
            "\x7b users(" ++ filterConditions ++ ") \x7b nodes \x7b " ++ fields ++ " \x7d \x7d \x7d"),
         "/data/users/nodes")
  else if object = "user" then
    match lookupOpt opts "id" with
    | none => .error "Missing required option 'id' for object 'user'"
    | some id =>
      .ok ("\x7b user(id: \\\"" ++ id ++ "\\\") \x7b " ++ fields ++ " \x7d \x7d",
           "/data/user")
  else if object = "user_assigned_issues" then
    match lookupOpt opts "user_id" with
    | none => .error "Missing required option 'user_id' for object 'user_assigned_issues'"
    | some user_id =>
      .ok ((if filterConditions.isEmpty then
              "\x7b user(id: \\\"" ++ user_id ++ "\\\") \x7b assignedIssues \x7b nodes \x7b " ++ fields ++ " \x7d \x7d \x7d \x7d"
            else
              "\x7b user(id: \\\"" ++ user_id ++ "\\\") \x7b assignedIssues(" ++ filterConditions ++ ") \x7b nodes \x7b " ++ fields ++ " \x7d \x7d \x7d \x7d"),
           "/data/user/assignedIssues/nodes")
  else if object = "cycles" then
    .ok ((if filterConditions.isEmpty then
            "\x7b cycles \x7b nodes \x7b " ++ fields ++ " \x7d \x7d \x7d"
          else
            "\x7b cycles(" ++ filterConditions ++ ") \x7b nodes \x7b " ++ fields ++ " \x7d \x7d \x7d"),
         "/data/cycles/nodes")
  else if object = "cycle_issues" then
    match lookupOpt opts "cycle_id" with
    | none => .error "Missing required option 'cycle_id' for object 'cycle_issues'"
    | some cycle_id =>
      .ok ((if filterConditions.isEmpty then
              "\x7b cycle(id: \\\"" ++ cycle_id ++ "\\\") \x7b issues \x7b nodes \x7b " ++ fields ++ " \x7d \x7d \x7d \x7d"
            else
              "\x7b cycle(id: \\\"" ++ cycle_id ++ "\\\") \x7b issues(" ++ filterConditions ++ ") \x7b nodes \x7b " ++ fields ++ " \x7d \x7d \x7d \x7d"),
           "/data/cycle/issues/nodes")
  else if object = "workflow_states" then
    .ok ((if filterConditions.isEmpty then
            "\x7b workflowStates \x7b nodes \x7b " ++ fields ++ " \x7d \x7d \x7d"
          else
            "\x7b workflowStates(" ++ filterConditions ++ ") \x7b nodes \x7b " ++ fields ++ " \x7d \x7d \x7d"),
         "/data/workflowStates/nodes")
  else if object = "issue_labels" then
    .ok ((if filterConditions.isEmpty then
            "\x7b issueLabels \x7b nodes \x7b " ++ fields ++ " \x7d \x7d \x7d"
          else
            "\x7b issueLabels(" ++ filterConditions ++ ") \x7b nodes \x7b " ++ fields ++ " \x7d \x7d \x7d"),
         "/data/issueLabels/nodes")
  else
    .error ("Unknown object type: " ++ object)

/-- One outbound HTTP request as built by `begin_scan` for the transport
adapter (`http::Request`; the method is always POST). -/
structure HttpRequest where
  url : String
  headers : List (String × String)
  body : String

/-- The pre-transport phase of `begin_scan`: read the `object` option,
assemble the field selection and the filter clause, build the query and
result pointer, and produce the POST request (JSON body, content-type
and authorization headers).  An error here means no HTTP request is
ever issued; the HTTP exchange itself and the response handling
(`materialize`) are the phases that follow. -/
def beginScanRequest (st : LinearFdw) (tableOpts : List (String × String))
    (cols : List Column) (quals : List Qual) : Except String (HttpRequest × String) :=
  match requireOpt tableOpts "object" with
  | .error e => .error e
  | .ok object =>
    match buildQuery object tableOpts (mkFilterConditions quals)
        (String.intercalate "\n          " (cols.map (fun c => graphqlField c.name))) with
    | .error e => .error e
    | .ok (query, resp_pointer) =>
      .ok ({ url := st.base_url,
             headers := [("content-type", "application/json"),
                         ("authorization", st.api_key)],
             body := jsonSerialize (Json.obj [("query", Json.str query)]) }, resp_pointer)

/-- The pointer-extraction block of `begin_scan` ("Always flatten to an
array for iter_scan"): an array node is taken as-is, an object node
becomes a one-element sequence, anything else (or an unresolved
pointer) yields the empty sequence. -/
def extractRows (respJson : Json) (respPointer : String) : List Json :=
  match jsonPointer respJson respPointer with
  | some node =>
    match node.asArray with
    | some items => items
    | none => if node.isObj then [node] else []
  | none => []

/-- The response phase of `begin_scan`, after a 200-status body has been
parsed: fail on a non-empty top-level `errors` array (serializing it
into the message), otherwise extract the record sequence at the result
pointer. -/
def materialize (respJson : Json) (respPointer : String) : Except String (List Json) :=
  match topGet respJson "errors" with
  | some errs =>
    match errs.asArray with
    | some a =>
      if a.isEmpty then .ok (extractRows respJson respPointer)
      else .error ("GraphQL errors: " ++ jsonSerialize errs)
    | none => .ok (extractRows respJson respPointer)
  | none => .ok (extractRows respJson respPointer)

/-- The decision of `begin_scan`'s GraphQL-error check as a Boolean:
`true` when the body carries no non-empty top-level `errors` array. -/
def noGraphqlErrors (respJson : Json) : Bool :=
  match topGet respJson "errors" with
  | some errs =>
    match errs.asArray with
    | some a => a.isEmpty
    | none => true
  | none => true

/-- The repeated nested extraction of `iter_scan`'s relation branches:
`src_row.as_object() -> get(outer) -> as_object() -> get(inner) ->
as_str()`, wrapped as a string cell when every step succeeds. -/
def nestedStrField (srcRow : Json) (outer inner : String) : Option Cell :=
  ((((srcRow.asObject.bind (fun m => lookupJ m outer)).bind Json.asObject).bind
      (fun m => lookupJ m inner)).bind Json.asStr).map Cell.string

/-- The `labels` branch of `iter_scan`: `labels -> nodes` as an array,
serialized back into a JSON cell. -/
def labelsField (srcRow : Json) : Option Cell :=
  ((((srcRow.asObject.bind (fun m => lookupJ m "labels")).bind Json.asObject).bind
      (fun m => lookupJ m "nodes")).bind Json.asArray).map
    (fun xs => Cell.json (jsonSerialize (Json.arr xs)))

/-- The per-column body of `iter_scan`'s `for tgt_col` loop: the nine
relation columns take their fixed nested extraction (never an error);
every other column looks up its camel-cased name and dispatches on the
declared type — absent fields give `none`, a present field of an
unsupported declared type is the `"data type is not supported"` error,
and a present string under a timestamp type goes through the host
rfc3339 parser `parseTs` (`time::parse_from_rfc3339`, an external host
routine passed as a parameter). -/
def coerceColumn (parseTs : String → Except String Int) (srcRow : Json)
    (name : String) (oid : TypeOid) : Except String (Option Cell) :=
  if name = "state_id" then .ok (nestedStrField srcRow "state" "id")
  else if name = "team_id" then .ok (nestedStrField srcRow "team" "id")
  else if name = "assignee_id" then .ok (nestedStrField srcRow "assignee" "id")
  else if name = "creator_id" then .ok (nestedStrField srcRow "creator" "id")
  else if name = "parent_id" then .ok (nestedStrField srcRow "parent" "id")
  else if name = "project_id" then .ok (nestedStrField srcRow "project" "id")
  else if name = "cycle_id" then .ok (nestedStrField srcRow "cycle" "id")
  else if name = "state" then .ok (nestedStrField srcRow "state" "name")
  else if name = "labels" then .ok (labelsField srcRow)
  else
    match topGet srcRow (snakeToCamel name) with
    | some value =>
      match oid with
      | .bool => .ok (value.asBool.map Cell.bool)
      | .i32 => .ok (value.asI64.map (fun v => Cell.i32 (((v + 2 ^ 31) % 2 ^ 32) - 2 ^ 31)))
      | .i64 => .ok (value.asI64.map Cell.i64)
      | .string => .ok (value.asStr.map Cell.string)
      | .timestamp =>
        match value.asStr with
        | some s =>
          match parseTs s with
          | .ok ts => .ok (some (Cell.timestamp ts))
          | .error e => .error e
        | none => .ok none
      | .timestamptz =>
        match value.asStr with
        | some s =>
          match parseTs s with
          | .ok ts => .ok (some (Cell.timestamp ts))
          | .error e => .error e
        | none => .ok none
      | .json => .ok (value.asObject.map (fun _ => Cell.json (jsonSerialize value)))
      | .other => .error ("column " ++ name ++ " data type is not supported")
    | none => .ok none

/-- Two's-complement truncation performed by the source's `v as i32`
cast on the 64-bit value read from JSON. -/
def toI32 (v : Int) : Int :=
  ((v + 2 ^ 31) % 2 ^ 32) - 2 ^ 31

/-- `iter_scan`: when the cursor has reached the record count, signal
exhaustion without touching the state; otherwise coerce every requested
column of the current record (an error aborts without advancing) and
advance the cursor.  The produced row is the list of pushed cells. -/
def iterScan (parseTs : String → Except String Int) (cols : List Column)
    (st : LinearFdw) : Except String (LinearFdw × Option (List (Option Cell))) :=
  if h : st.src_idx < st.src_rows.length then
    match cols.mapM (fun c =>
        coerceColumn parseTs (st.src_rows.get ⟨st.src_idx, h⟩) c.name c.type_oid) with
    | .error e => .error e
    | .ok row => .ok ({ st with src_idx := st.src_idx + 1 }, some row)
  else
    .ok (st, none)

/-- `end_scan`: clear the fetched records (the cursor is left alone). -/
def endScan (st : LinearFdw) : LinearFdw :=
  { st with src_rows := [] }

/-- Lifecycle calls whose effect on the scan state we track. `beginOp`
carries the records the (external) HTTP exchange materialized. -/
inductive ScanOp where
  | beginOp (rows : List Json)
  | iterOp
  | endOp

/-- State transition of one lifecycle call: `begin_scan` installs the
materialized records (the source never resets `src_idx`), `iter_scan`
either advances or leaves the state (exhaustion and errors both leave
it), `end_scan` clears the records. -/
def stepOp (parseTs : String → Except String Int) (cols : List Column)
    (st : LinearFdw) : ScanOp → LinearFdw
  | .beginOp rows => { st with src_rows := rows }
  | .iterOp =>
    match iterScan parseTs cols st with
    | .ok (st', _) => st'
    | .error _ => st
  | .endOp => endScan st

/-- Run a sequence of lifecycle calls from a state. -/
def runOps (parseTs : String → Except String Int) (cols : List Column)
    (st : LinearFdw) : List ScanOp → LinearFdw
  | [] => st
  | op :: ops => runOps parseTs cols (stepOp parseTs cols st op) ops

/-- `begin_modify`: unconditional fixed error. -/
def beginModify (_ctx : Unit) : Except String Unit :=
  .error "modify on foreign table is not supported"

/-- `re_scan`: unconditional fixed error. -/
def reScan (_ctx : Unit) : Except String Unit :=
  .error "re_scan on foreign table is not supported"

/-- `insert`: a no-op that reports success. -/
def insertRow (_ctx : Unit) (_row : List (Option Cell)) : Except String Unit :=
  .ok ()

/-- `update`: a no-op that reports success. -/
def updateRow (_ctx : Unit) (_rowid : Cell) (_row : List (Option Cell)) : Except String Unit :=
  .ok ()

/-- `delete`: a no-op that reports success. -/
def deleteRow (_ctx : Unit) (_rowid : Cell) : Except String Unit :=
  .ok ()

/-- `end_modify`: a no-op that reports success. -/
def endModify (_ctx : Unit) : Except String Unit :=
  .ok ()

/-- Spec-side operator table (section 4.2 of the spec, stated over the
PostgreSQL operator spellings the host delivers): the fixed, exhaustive
mapping from supported comparison operators to Linear filter operators. -/
def specOperatorTable : List (String × String) :=
  [("=", "eq"), ("<>", "neq"), (">", "gt"), (">=", "gte"),
   ("<", "lt"), ("<=", "lte"), ("~~", "contains"), ("!~~", "notContains"),
   ("~~*", "containsIgnoreCase"), ("!~~*", "notContainsIgnoreCase"),
   ("IS NULL", "null"), ("IS NOT NULL", "notNull")]

/-- Spec-side value formatting (section 4.2): string and timestamp
literals quoted, boolean and integer literals bare, every other value
kind unsupported. -/
def specRenderValue : QualValue → Option String
  | .cell (.string s) => some ("\"" ++ s ++ "\"")
  | .cell (.timestamp t) => some ("\"" ++ toString t ++ "\"")
  | .cell (.bool b) => some (if b then "true" else "false")
  | .cell (.i32 n) => some (toString n)
  | .cell (.i64 n) => some (toString n)
  | _ => none

/-- Spec-side per-predicate translation: a filter fragment
`field: { op: value }` when both the operator and the value translate,
nothing otherwise (the predicate is skipped). -/
def specFilterFragment (q : Qual) : Option String :=
  match (specOperatorTable.find? (fun kv => kv.fst == q.operator)), specRenderValue q.value with
  | some kv, some fv =>
    some (snakeToCamel q.field ++ ": \x7b " ++ kv.snd ++ ": " ++ fv ++ " \x7d")
  | _, _ => none

/-- Extraction rule of one registered relation field (spec's
`RelationField` registry): a nested scalar at `outer.inner`, or the
serialized `labels.nodes` array. -/
inductive RelExtract where
  | nestedStr (outer inner : String)
  | labelNodes
deriving DecidableEq

/-- The relation-field registry the spec describes: relational column
name paired with its fixed extraction path. -/
def relationRegistry : List (String × RelExtract) :=
  [("state_id", .nestedStr "state" "id"),
   ("team_id", .nestedStr "team" "id"),
   ("assignee_id", .nestedStr "assignee" "id"),
   ("creator_id", .nestedStr "creator" "id"),
   ("parent_id", .nestedStr "parent" "id"),
   ("project_id", .nestedStr "project" "id"),
   ("cycle_id", .nestedStr "cycle" "id"),
   ("state", .nestedStr "state" "name"),
   ("labels", .labelNodes)]

/-- Run a registry entry's extraction on a record. -/
def runRelExtract (srcRow : Json) : RelExtract → Option Cell
  | .nestedStr outer inner => nestedStrField srcRow outer inner
  | .labelNodes => labelsField srcRow

/-- The nine relation column names (the special-cased branches of both
`begin_scan`'s field selection and `iter_scan`'s coercion). -/
def relationColumnNames : List String :=
  ["state_id", "team_id", "assignee_id", "creator_id", "parent_id",
   "project_id", "cycle_id", "state", "labels"]

/-- The fourteen logical object kinds `begin_scan` recognizes. -/
def supportedObjects : List String :=
  ["issues", "issue", "teams", "team", "projects", "project",
   "project_issues", "users", "user", "user_assigned_issues",
   "cycles", "cycle_issues", "workflow_states", "issue_labels"]

/-- The table option each scoped or singleton object kind requires
(spec sections 4.3 and 8): absent for collection kinds. -/
def requiredScopeOpt (object : String) : Option String :=
  if object = "issue" then some "id"
  else if object = "team" then some "id"
  else if object = "project" then some "id"
  else if object = "user" then some "id"
  else if object = "project_issues" then some "project_id"
  else if object = "user_assigned_issues" then some "user_id"
  else if object = "cycle_issues" then some "cycle_id"
  else none

/-- Whether a character occurs in a string (over the character list, so
that concrete instances evaluate). -/
def containsChar (s : String) (c : Char) : Bool :=
  s.data.contains c

/-! ### Helper lemmas -/

theorem specRenderValue_eq_formatQualValue (v : QualValue) :
    specRenderValue v = formatQualValue v := by
  cases v with
  | cell c => cases c <;> rfl
  | other => rfl

theorem specTable_find_eq_filterOpOf (s : String) :
    (specOperatorTable.find? (fun kv => kv.fst == s)).map Prod.snd = filterOpOf s := by
  rcases eq_or_ne s "=" with rfl | hs1
  · rfl
  rcases eq_or_ne s "<>" with rfl | hs2
  · rfl
  rcases eq_or_ne s ">" with rfl | hs3
  · rfl
  rcases eq_or_ne s ">=" with rfl | hs4
  · rfl
  rcases eq_or_ne s "<" with rfl | hs5
  · rfl
  rcases eq_or_ne s "<=" with rfl | hs6
  · rfl
  rcases eq_or_ne s "~~" with rfl | hs7
  · rfl
  rcases eq_or_ne s "!~~" with rfl | hs8
  · rfl
  rcases eq_or_ne s "~~*" with rfl | hs9
  · rfl
  rcases eq_or_ne s "!~~*" with rfl | hs10
  · rfl
  rcases eq_or_ne s "IS NULL" with rfl | hs11
  · rfl
  rcases eq_or_ne s "IS NOT NULL" with rfl | hs12
  · rfl
  have es1 : ("=" == s) = false := beq_eq_false_iff_ne.mpr (Ne.symm hs1)
  have es2 : ("<>" == s) = false := beq_eq_false_iff_ne.mpr (Ne.symm hs2)
  have es3 : (">" == s) = false := beq_eq_false_iff_ne.mpr (Ne.symm hs3)
  have es4 : (">=" == s) = false := beq_eq_false_iff_ne.mpr (Ne.symm hs4)
  have es5 : ("<" == s) = false := beq_eq_false_iff_ne.mpr (Ne.symm hs5)
  have es6 : ("<=" == s) = false := beq_eq_false_iff_ne.mpr (Ne.symm hs6)
  have es7 : ("~~" == s) = false := beq_eq_false_iff_ne.mpr (Ne.symm hs7)
  have es8 : ("!~~" == s) = false := beq_eq_false_iff_ne.mpr (Ne.symm hs8)
  have es9 : ("~~*" == s) = false := beq_eq_false_iff_ne.mpr (Ne.symm hs9)
  have es10 : ("!~~*" == s) = false := beq_eq_false_iff_ne.mpr (Ne.symm hs10)
  have es11 : ("IS NULL" == s) = false := beq_eq_false_iff_ne.mpr (Ne.symm hs11)
  have es12 : ("IS NOT NULL" == s) = false := beq_eq_false_iff_ne.mpr (Ne.symm hs12)
  simp [specOperatorTable, List.find?, filterOpOf,
    es1, es2, es3, es4, es5, es6, es7, es8, es9, es10, es11, es12,
    hs1, hs2, hs3, hs4, hs5, hs6, hs7, hs8, hs9, hs10, hs11, hs12]

/-! ### Claim theorems -/

/-- C2 counterexample: the claim asserts every write-path call,
`insert` included, returns the fixed "not supported" error; `insert`
on a concrete empty row in fact reports success. -/
theorem c2_insert_counterexample : insertRow () [] = .ok () := rfl

/-- C2 (amended): `begin_modify` always fails with the fixed
"modify on foreign table is not supported" error, but `insert`,
`update`, `delete` and `end_modify` are success-returning no-ops for
every context, row and rowid argument. -/
theorem c2_write_path (ctx : Unit) (rowid : Cell) (row : List (Option Cell)) :
    beginModify ctx = .error "modify on foreign table is not supported"
    ∧ insertRow ctx row = .ok ()
    ∧ updateRow ctx rowid row = .ok ()
    ∧ deleteRow ctx rowid = .ok ()
    ∧ endModify ctx = .ok () :=
  ⟨rfl, rfl, rfl, rfl, rfl⟩

/-- C7: the predicate translation loop equals, predicate for predicate,
the spec's fixed operator table with its value formatting — each
translated predicate yields `field: { op: value }` with strings and
timestamps quoted and booleans/integers bare, and every predicate whose
operator is outside the table or whose value kind is unsupported is
silently dropped; concretely, `title = 'X'` yields `title: { eq: "X" }`
while an array-contains predicate disappears without an error. -/
theorem c7_operator_mapping :
    (∀ quals : List Qual, buildFilters quals = quals.filterMap specFilterFragment)
    ∧ buildFilters [⟨"title", "=", .cell (.string "X")⟩, ⟨"labels", "@>", .cell (.string "y")⟩]
        = ["title: \x7b eq: \"X\" \x7d"]
    ∧ buildFilters [⟨"created_at", ">", .cell (.timestamp 1700000000)⟩]
        = ["createdAt: \x7b gt: \"1700000000\" \x7d"] := by
  refine ⟨?_, ?_, ?_⟩
  · intro quals
    induction quals with
    | nil => rfl
    | cons q rest ih =>
      have hop := specTable_find_eq_filterOpOf q.operator
      have hrv := specRenderValue_eq_formatQualValue q.value
      cases hfo : filterOpOf q.operator with
      | none =>
        rw [hfo] at hop
        have hfind : specOperatorTable.find? (fun kv => kv.fst == q.operator) = none :=
          Option.map_eq_none'.mp hop
        have hfrag : specFilterFragment q = none := by
          unfold specFilterFragment
          rw [hfind]
        simp [buildFilters, hfo, List.filterMap_cons, hfrag, ih]
      | some fop =>
        rw [hfo] at hop
        obtain ⟨kv, hk, hsnd⟩ := Option.map_eq_some'.mp hop
        cases hfv : formatQualValue q.value with
        | none =>
          have hfrag : specFilterFragment q = none := by
            unfold specFilterFragment
            rw [hk, hrv, hfv]
          simp [buildFilters, hfo, hfv, List.filterMap_cons, hfrag, ih]
        | some fv =>
          have hfrag : specFilterFragment q
              = some (snakeToCamel q.field ++ ": \x7b " ++ fop ++ ": " ++ fv ++ " \x7d") := by
            unfold specFilterFragment
            rw [hk, hrv, hfv]
            simp [hsnd]
          simp [buildFilters, hfo, hfv, List.filterMap_cons, hfrag, ih]
  · rfl
  · rfl

/-- C8: coercion of each registered relation column always runs the
registry's fixed nested extraction — never an error; a record carrying
only the camel-cased flat field (with a non-object value) still yields
an absent cell, as does a record without the nested object at all. -/
theorem c8_relation_columns (parseTs : String → Except String Int) (row : Json)
    (oid : TypeOid) (name : String) (ext : RelExtract)
    (hmem : (name, ext) ∈ relationRegistry) :
    coerceColumn parseTs row name oid = .ok (runRelExtract row ext)
    ∧ coerceColumn parseTs (Json.obj [(snakeToCamel name, Json.str "x")]) name oid = .ok none
    ∧ coerceColumn parseTs (Json.obj []) name oid = .ok none := by
  simp only [relationRegistry, List.mem_cons, List.not_mem_nil, or_false,
    Prod.mk.injEq] at hmem
  rcases hmem with hpair | hpair | hpair | hpair | hpair | hpair | hpair | hpair | hpair <;>
    obtain ⟨rfl, rfl⟩ := hpair <;>
    exact ⟨rfl, rfl, rfl⟩

/-- C8 witness: the `state_id` registry entry, on a record whose
`state` object carries id `s1`. -/
theorem c8_relation_columns_witness :
    ("state_id", RelExtract.nestedStr "state" "id") ∈ relationRegistry
    ∧ coerceColumn (fun _ => .error "") (Json.obj [("state", Json.obj [("id", Json.str "s1")])])
        "state_id" TypeOid.string
        = .ok (runRelExtract (Json.obj [("state", Json.obj [("id", Json.str "s1")])])
            (RelExtract.nestedStr "state" "id")) :=
  ⟨by simp [relationRegistry],
   (c8_relation_columns (fun _ => .error "") _ TypeOid.string "state_id"
      (RelExtract.nestedStr "state" "id") (by simp [relationRegistry])).1⟩

/-- C1 counterexample: a 32-bit integer column over the numeric source
value 4294967296 (= 2^32, representable in 64 bits but not in 32)
produces the truncated cell 0 — not an absent cell as the claim
requires. -/
theorem c1_truncation_counterexample :
    coerceColumn (fun _ => .error "") (Json.obj [("number", Json.number (JNum.int 4294967296))])
      "number" TypeOid.i32 = .ok (some (Cell.i32 0)) := by
  rfl

/-- C1 (amended): for a non-relation column declared 32-bit integer, a
missing source field or a non-numeric or non-64-bit-representable source
value yields an absent cell, but a numeric source value readable as a
64-bit integer always yields a cell carrying the value wrapped to 32
bits two's-complement — out-of-range values are truncated, not
nulled. -/
theorem c1_i32_coercion (parseTs : String → Except String Int) (row : Json)
    (name : String) (v : Json) (hname : name ∉ relationColumnNames) :
    (topGet row (snakeToCamel name) = none →
      coerceColumn parseTs row name TypeOid.i32 = .ok none)
    ∧ (topGet row (snakeToCamel name) = some v → v.asI64 = none →
        coerceColumn parseTs row name TypeOid.i32 = .ok none)
    ∧ (∀ n : Int, topGet row (snakeToCamel name) = some v → v.asI64 = some n →
        coerceColumn parseTs row name TypeOid.i32 = .ok (some (Cell.i32 (toI32 n)))) := by
  simp only [relationColumnNames, List.mem_cons, List.not_mem_nil, or_false, not_or] at hname
  obtain ⟨hni1, hni2, hni3, hni4, hni5, hni6, hni7, hni8, hni9⟩ := hname
  refine ⟨?_, ?_, ?_⟩
  · intro hv
    simp [coerceColumn, hni1, hni2, hni3, hni4, hni5, hni6, hni7, hni8, hni9, hv]
  · intro hv hn
    simp [coerceColumn, hni1, hni2, hni3, hni4, hni5, hni6, hni7, hni8, hni9, hv, hn]
  · intro n hv hn
    simp [coerceColumn, hni1, hni2, hni3, hni4, hni5, hni6, hni7, hni8, hni9, hv, hn, toI32]

/-- C1 witness: the in-range value 5 under the non-relation column
`number` produces the (identity-wrapped) 32-bit cell. -/
theorem c1_i32_coercion_witness :
    "number" ∉ relationColumnNames
    ∧ coerceColumn (fun _ => .error "") (Json.obj [("number", Json.number (JNum.int 5))])
        "number" TypeOid.i32 = .ok (some (Cell.i32 (toI32 5))) :=
  ⟨by decide,
   ((c1_i32_coercion (fun _ => .error "") (Json.obj [("number", Json.number (JNum.int 5))])
      "number" (Json.number (JNum.int 5)) (by decide)).2.2) 5 rfl rfl⟩

/-- C4 counterexample: a non-relation column of an unsupported declared
type whose source field is absent from the record yields a silently
absent cell, not the "unsupported column type" error the claim requires
"regardless of whether the source field is present". -/
theorem c4_absent_field_counterexample :
    coerceColumn (fun _ => .error "") (Json.obj []) "payload" TypeOid.other = .ok none := by
  rfl

/-- C4 (amended): for a non-relation column of an unsupported declared
type, coercion is the fatal "data type is not supported" error exactly
when the source field is present in the record; when the field is
absent, coercion yields an absent cell for every declared type
(relation-named columns bypass the type dispatch entirely, per C8). -/
theorem c4_unsupported_type (parseTs : String → Except String Int) (row : Json)
    (name : String) (v : Json) (hname : name ∉ relationColumnNames) :
    (topGet row (snakeToCamel name) = some v →
      coerceColumn parseTs row name TypeOid.other
        = .error ("column " ++ name ++ " data type is not supported"))
    ∧ (topGet row (snakeToCamel name) = none →
        ∀ oid, coerceColumn parseTs row name oid = .ok none) := by
  simp only [relationColumnNames, List.mem_cons, List.not_mem_nil, or_false, not_or] at hname
  obtain ⟨hni1, hni2, hni3, hni4, hni5, hni6, hni7, hni8, hni9⟩ := hname
  refine ⟨?_, ?_⟩
  · intro hv
    simp [coerceColumn, hni1, hni2, hni3, hni4, hni5, hni6, hni7, hni8, hni9, hv]
  · intro hv oid
    simp [coerceColumn, hni1, hni2, hni3, hni4, hni5, hni6, hni7, hni8, hni9, hv]

/-- C4 witness: the present field `payload` (an object) under an
unsupported declared type errors out; the same column over an empty
record yields an absent cell. -/
theorem c4_unsupported_type_witness :
    "payload" ∉ relationColumnNames
    ∧ coerceColumn (fun _ => .error "") (Json.obj [("payload", Json.obj [])])
        "payload" TypeOid.other
        = .error ("column " ++ "payload" ++ " data type is not supported")
    ∧ coerceColumn (fun _ => .error "") (Json.obj []) "payload" TypeOid.bool = .ok none :=
  ⟨by decide,
   (c4_unsupported_type (fun _ => .error "") (Json.obj [("payload", Json.obj [])])
      "payload" (Json.obj []) (by decide)).1 rfl,
   (c4_unsupported_type (fun _ => .error "") (Json.obj [])
      "payload" (Json.obj []) (by decide)).2 rfl TypeOid.bool⟩

/-- C5: the claim is the source's evident intent and the code has a
slip.  Evaluating the query builder at the failing input — object kind
`issue`, id `X`, empty columns, no predicates — shows the emitted query
text contains literal backslash-escape characters (the raw-string
templates render `\"` verbatim), so the text is not clean GraphQL; for
collection kinds (e.g. `issues`) the text is clean and, when zero
predicates translate (e.g. a lone array-contains predicate), no filter
clause is rendered at all. -/
theorem c5_escape_artifact :
    buildQuery "issue" [("object", "issue"), ("id", "X")] "" ""
      = .ok ("\x7b issue(id: \\\"X\\\") \x7b  \x7d \x7d", "/data/issue")
    ∧ containsChar "\x7b issue(id: \\\"X\\\") \x7b  \x7d \x7d" '\\' = true
    ∧ buildQuery "issues" [("object", "issues")] (mkFilterConditions [⟨"title", "@>", .cell (.string "v")⟩]) ""
      = .ok ("\x7b issues \x7b nodes \x7b  \x7d \x7d \x7d", "/data/issues/nodes")
    ∧ containsChar "\x7b issues \x7b nodes \x7b  \x7d \x7d \x7d" '\\' = false
    ∧ mkFilterConditions [⟨"title", "@>", .cell (.string "v")⟩] = "" := by
  refine ⟨rfl, rfl, rfl, rfl, rfl⟩

/-- C3 counterexample: begin a scan with one record, fetch it, then end
the scan — `end_scan` clears the records but never resets the cursor,
so the resulting state has cursor 1 over 0 records: the cursor exceeds
the record count in a reachable state. -/
theorem c3_cursor_overrun_counterexample :
    (runOps (fun _ => .error "") [] initialState
        [ScanOp.beginOp [Json.null], ScanOp.iterOp, ScanOp.endOp]).src_rows.length
      < (runOps (fun _ => .error "") [] initialState
          [ScanOp.beginOp [Json.null], ScanOp.iterOp, ScanOp.endOp]).src_idx := by
  decide

theorem iterStep_preserves_bound (parseTs : String → Except String Int)
    (cols : List Column) (st : LinearFdw) (h : st.src_idx ≤ st.src_rows.length) :
    (stepOp parseTs cols st ScanOp.iterOp).src_idx
      ≤ (stepOp parseTs cols st ScanOp.iterOp).src_rows.length := by
  rcases hscan : iterScan parseTs cols st with e | p
  · simp only [stepOp, hscan]
    exact h
  · obtain ⟨st', r⟩ := p
    simp only [stepOp, hscan]
    unfold iterScan at hscan
    by_cases hlt : st.src_idx < st.src_rows.length
    · rw [dif_pos hlt] at hscan
      cases hm : List.mapM (fun c => coerceColumn parseTs
          (st.src_rows.get ⟨st.src_idx, hlt⟩) c.name c.type_oid) cols with
      | error e => rw [hm] at hscan; exact absurd hscan (by simp)
      | ok row =>
        rw [hm] at hscan
        simp only [Except.ok.injEq, Prod.mk.injEq] at hscan
        obtain ⟨hst', _⟩ := hscan
        rw [← hst']
        exact hlt
    · rw [dif_neg hlt] at hscan
      simp only [Except.ok.injEq, Prod.mk.injEq] at hscan
      obtain ⟨hst', _⟩ := hscan
      rw [← hst']
      exact h

theorem runOps_iter_bound (parseTs : String → Except String Int) (cols : List Column)
    (ops : List ScanOp) :
    ∀ st : LinearFdw, (∀ op ∈ ops, op = ScanOp.iterOp) →
      st.src_idx ≤ st.src_rows.length →
      (runOps parseTs cols st ops).src_idx ≤ (runOps parseTs cols st ops).src_rows.length := by
  induction ops with
  | nil => intro st _ h; exact h
  | cons op rest ih =>
    intro st hops hst
    have hop : op = ScanOp.iterOp := hops op (List.mem_cons_self _ _)
    subst hop
    simp only [runOps]
    exact ih _ (fun o ho => hops o (List.mem_cons_of_mem _ ho))
      (iterStep_preserves_bound parseTs cols st hst)

/-- C3 (amended): whenever the cursor is at least the record count,
`iter_scan` signals exhaustion without advancing state or raising an
error — exhaustion is idempotent; and after a fresh init and one
`begin_scan`, the cursor never exceeds the record count through any
number of `iter_scan` calls.  (Across `end_scan` — which clears the
records without resetting the cursor — or a second `begin_scan`, the
cursor can exceed the record count, per the counterexample.) -/
theorem c3_cursor_invariant (parseTs : String → Except String Int) (cols : List Column) :
    (∀ st : LinearFdw, st.src_rows.length ≤ st.src_idx →
      iterScan parseTs cols st = .ok (st, none))
    ∧ (∀ (rows : List Json) (ops : List ScanOp), (∀ op ∈ ops, op = ScanOp.iterOp) →
        (runOps parseTs cols (stepOp parseTs cols initialState (ScanOp.beginOp rows)) ops).src_idx
          ≤ (runOps parseTs cols (stepOp parseTs cols initialState (ScanOp.beginOp rows)) ops).src_rows.length) := by
  constructor
  · intro st h
    unfold iterScan
    rw [dif_neg (Nat.not_lt.mpr h)]
  · intro rows ops hops
    exact runOps_iter_bound parseTs cols ops _ hops (Nat.zero_le _)

/-- C3 witness: an already-exhausted state (cursor 2, no records) keeps
answering exhaustion unchanged, and two fetches after a fresh one-record
scan keep the cursor within the record count. -/
theorem c3_cursor_invariant_witness :
    iterScan (fun _ => .error "") [] { base_url := "", src_rows := [], src_idx := 2, api_key := "" }
      = .ok ({ base_url := "", src_rows := [], src_idx := 2, api_key := "" }, none)
    ∧ (runOps (fun _ => .error "") []
        (stepOp (fun _ => .error "") [] initialState (ScanOp.beginOp [Json.null]))
        [ScanOp.iterOp, ScanOp.iterOp]).src_idx
      ≤ (runOps (fun _ => .error "") []
          (stepOp (fun _ => .error "") [] initialState (ScanOp.beginOp [Json.null]))
          [ScanOp.iterOp, ScanOp.iterOp]).src_rows.length :=
  ⟨(c3_cursor_invariant (fun _ => .error "") []).1 _ (Nat.zero_le _),
   (c3_cursor_invariant (fun _ => .error "") []).2 [Json.null] [ScanOp.iterOp, ScanOp.iterOp]
     (by intro op hop; rcases hop with _ | ⟨_, hop⟩; · rfl
         rcases hop with _ | ⟨_, hop⟩; · rfl
         cases hop)⟩

/-- C6: with the `object` option present, an object name outside the
supported set makes `begin_scan` fail with the "Unknown object type"
configuration error, and a supported kind whose required id/scope option
is absent fails with the corresponding "Missing required option" error —
in both cases the request-building phase returns no request, so no HTTP
call is ever issued. -/
theorem c6_config_errors (st : LinearFdw) (tableOpts : List (String × String))
    (cols : List Column) (quals : List Qual) (object : String)
    (hobj : lookupOpt tableOpts "object" = some object) :
    (object ∉ supportedObjects →
      beginScanRequest st tableOpts cols quals
        = .error ("Unknown object type: " ++ object))
    ∧ (∀ k, requiredScopeOpt object = some k → lookupOpt tableOpts k = none →
        beginScanRequest st tableOpts cols quals
          = .error ("Missing required option '" ++ k ++ "' for object '" ++ object ++ "'")) := by
  have hreq : requireOpt tableOpts "object" = .ok object := by
    simp [requireOpt, hobj]
  constructor
  · intro hmem
    simp only [supportedObjects, List.mem_cons, List.not_mem_nil, or_false, not_or] at hmem
    obtain ⟨hob1, hob2, hob3, hob4, hob5, hob6, hob7, hob8, hob9, hob10, hob11, hob12, hob13, hob14⟩ := hmem
    simp [beginScanRequest, hreq, buildQuery,
      hob1, hob2, hob3, hob4, hob5, hob6, hob7, hob8, hob9, hob10, hob11, hob12, hob13, hob14]
  · intro k hk hnone
    unfold requiredScopeOpt at hk
    split_ifs at hk with hc1 hc2 hc3 hc4 hc5 hc6 hc7
    · subst hc1
      simp only [Option.some.injEq] at hk
      subst hk
      simp [beginScanRequest, hreq, buildQuery, hnone]
    · subst hc2
      simp only [Option.some.injEq] at hk
      subst hk
      simp [beginScanRequest, hreq, buildQuery, hnone]
    · subst hc3
      simp only [Option.some.injEq] at hk
      subst hk
      simp [beginScanRequest, hreq, buildQuery, hnone]
    · subst hc4
      simp only [Option.some.injEq] at hk
      subst hk
      simp [beginScanRequest, hreq, buildQuery, hnone]
    · subst hc5
      simp only [Option.some.injEq] at hk
      subst hk
      simp [beginScanRequest, hreq, buildQuery, hnone]
    · subst hc6
      simp only [Option.some.injEq] at hk
      subst hk
      simp [beginScanRequest, hreq, buildQuery, hnone]
    · subst hc7
      simp only [Option.some.injEq] at hk
      subst hk
      simp [beginScanRequest, hreq, buildQuery, hnone]

/-- C6 witness: the unknown object name `bogus` and the `issue` kind
without its `id` option both fail with their configuration errors. -/
theorem c6_config_errors_witness :
    (lookupOpt [("object", "bogus")] "object" = some "bogus"
      ∧ "bogus" ∉ supportedObjects
      ∧ beginScanRequest initialState [("object", "bogus")] [] []
          = .error ("Unknown object type: " ++ "bogus"))
    ∧ (lookupOpt [("object", "issue")] "object" = some "issue"
      ∧ requiredScopeOpt "issue" = some "id"
      ∧ lookupOpt [("object", "issue")] "id" = none
      ∧ beginScanRequest initialState [("object", "issue")] [] []
          = .error ("Missing required option '" ++ "id" ++ "' for object '" ++ "issue" ++ "'")) :=
  ⟨⟨rfl, by decide,
    (c6_config_errors initialState [("object", "bogus")] [] [] "bogus" rfl).1 (by decide)⟩,
   ⟨rfl, rfl, rfl,
    (c6_config_errors initialState [("object", "issue")] [] [] "issue" rfl).2 "id" rfl rfl⟩⟩

/-- C9: for a parsed response body carrying no non-empty `errors`
array, the node at the result pointer becomes the record sequence
directly when it is an array, a one-element sequence when it is an
object, and an absent node yields the empty sequence with success. -/
theorem c9_materialization (j : Json) (ptr : String) (herr : noGraphqlErrors j = true) :
    (∀ xs, jsonPointer j ptr = some (Json.arr xs) → materialize j ptr = .ok xs)
    ∧ (∀ kvs, jsonPointer j ptr = some (Json.obj kvs) → materialize j ptr = .ok [Json.obj kvs])
    ∧ (jsonPointer j ptr = none → materialize j ptr = .ok []) := by
  have hex : materialize j ptr = .ok (extractRows j ptr) := by
    unfold materialize
    cases hg : topGet j "errors" with
    | none => rfl
    | some errs =>
      simp only [noGraphqlErrors, hg] at herr
      cases ha : errs.asArray with
      | none => simp [ha]
      | some a =>
        simp only [ha] at herr
        simp [ha, herr]
  refine ⟨?_, ?_, ?_⟩
  · intro xs hp
    rw [hex]
    unfold extractRows
    rw [hp]
    rfl
  · intro kvs hp
    rw [hex]
    unfold extractRows
    rw [hp]
    rfl
  · intro hp
    rw [hex]
    unfold extractRows
    rw [hp]

/-- C9 witness: a benign body whose pointer resolves to a one-element
node array materializes to exactly that record list. -/
theorem c9_materialization_witness :
    noGraphqlErrors (Json.obj [("data", Json.obj [("issues", Json.obj [("nodes", Json.arr [Json.null])])])]) = true
    ∧ materialize (Json.obj [("data", Json.obj [("issues", Json.obj [("nodes", Json.arr [Json.null])])])])
        "/data/issues/nodes" = .ok [Json.null] :=
  ⟨rfl,
   (c9_materialization (Json.obj [("data", Json.obj [("issues", Json.obj [("nodes", Json.arr [Json.null])])])])
      "/data/issues/nodes" rfl).1 [Json.null] (by rfl)⟩

/-- C10: during init, with `api_key` absent, a missing `api_key_id` is
an init error; but when `api_key_id` is present and the vault lookup
fails, init succeeds with the empty-string credential — and every
successfully built scan request carries the instance's credential
verbatim in its authorization header. -/
theorem c10_vault_credential (serverOpts : List (String × String))
    (vault : String → Option String) :
    (lookupOpt serverOpts "api_key" = none → lookupOpt serverOpts "api_key_id" = none →
      fdwInit serverOpts vault = .error ("required option not found: " ++ "api_key_id"))
    ∧ (∀ kid, lookupOpt serverOpts "api_key" = none →
        lookupOpt serverOpts "api_key_id" = some kid → vault kid = none →
        fdwInit serverOpts vault
          = .ok { base_url := requireOr serverOpts "api_url" "https://api.linear.app/graphql",
                  src_rows := [], src_idx := 0, api_key := "" })
    ∧ (∀ (st : LinearFdw) (tableOpts : List (String × String)) (cols : List Column)
        (quals : List Qual) (req : HttpRequest) (ptr : String),
        beginScanRequest st tableOpts cols quals = .ok (req, ptr) →
        ("authorization", st.api_key) ∈ req.headers) := by
  refine ⟨?_, ?_, ?_⟩
  · intro h1 h2
    simp [fdwInit, h1, requireOpt, h2]
  · intro kid h1 h2 h3
    simp [fdwInit, h1, requireOpt, h2, h3, initialState]
  · intro st tableOpts cols quals req ptr h
    unfold beginScanRequest at h
    cases hr : requireOpt tableOpts "object" with
    | error e => simp only [hr] at h; exact absurd h (by simp)
    | ok object =>
      simp only [hr] at h
      cases hb : buildQuery object tableOpts (mkFilterConditions quals)
          (String.intercalate "\n          " (cols.map (fun c => graphqlField c.name))) with
      | error e =>
        simp only [hb] at h
        exact absurd h (by simp)
      | ok qp =>
        obtain ⟨q, p⟩ := qp
        simp only [hb, Except.ok.injEq, Prod.mk.injEq] at h
        obtain ⟨hreq, _⟩ := h
        rw [← hreq]
        simp

/-- C10 witness: with no server options at all, init fails on the
missing `api_key_id`; with only `api_key_id` and an empty vault, init
succeeds with the empty credential; and the request built for a plain
`issues` scan carries that credential in its authorization header. -/
theorem c10_vault_credential_witness :
    (lookupOpt ([] : List (String × String)) "api_key" = none
      ∧ fdwInit [] (fun _ => none) = .error ("required option not found: " ++ "api_key_id"))
    ∧ (fdwInit [("api_key_id", "k")] (fun _ => none)
        = .ok { base_url := "https://api.linear.app/graphql",
                src_rows := [], src_idx := 0, api_key := "" })
    ∧ (beginScanRequest { base_url := "u", src_rows := [], src_idx := 0, api_key := "secret" }
          [("object", "issues")] [] []
        = .ok ({ url := "u",
                 headers := [("content-type", "application/json"), ("authorization", "secret")],
                 body := "\x7b\"query\":\"\x7b issues \x7b nodes \x7b  \x7d \x7d \x7d\"\x7d" },
               "/data/issues/nodes")
      ∧ ("authorization", "secret")
          ∈ [("content-type", "application/json"), ("authorization", "secret")]) :=
  ⟨⟨rfl, (c10_vault_credential [] (fun _ => none)).1 rfl rfl⟩,
   (c10_vault_credential [("api_key_id", "k")] (fun _ => none)).2.1 "k" rfl rfl rfl,
   rfl,
   (c10_vault_credential [] (fun _ => none)).2.2
     { base_url := "u", src_rows := [], src_idx := 0, api_key := "secret" }
     [("object", "issues")] [] []
     { url := "u",
       headers := [("content-type", "application/json"), ("authorization", "secret")],
       body := "\x7b\"query\":\"\x7b issues \x7b nodes \x7b  \x7d \x7d \x7d\"\x7d" }
     "/data/issues/nodes" rfl⟩
